import Mathlib

/-!
Verification of the Vagrant driver (`src/molecule_plugins/vagrant/driver.py`).

The driver is a thin adapter class.  We embed its methods as pure Lean
functions.  Python dictionaries read from the YAML instance-config file are
modelled as association lists of string keys and scalar values; Python
exceptions (`StopIteration`, `OSError`, `KeyError`) are modelled with
`Except PyError`; the filesystem is a map from paths to the parsed YAML
content (`none` means the file is absent, so opening it raises `OSError`).
External helpers from the `molecule` package (`util.safe_load_file`,
`util.merge_dicts`, `util.sysexit_with_message`) and from the Python standard
library (`shutil.which`, `os.path.join`, `str.format`) are modelled after
their documented behaviour, as consumed by this driver.
-/

/-- A scalar YAML value appearing in an instance-config record: a string or
an integer (the `port` field). -/
inductive Value where
  | s : String → Value
  | n : Int → Value
deriving DecidableEq, Repr

/-- A Python dictionary with string keys, as parsed from YAML: an ordered
association list.  Python dictionaries have unique keys; predicates below
take that as a hypothesis where it matters. -/
abbrev Dict := List (String × Value)

/-- The Python exceptions this driver can see: `StopIteration` from `next`
on an exhausted generator, `OSError` from opening a missing file, and
`KeyError` from a missing dictionary key. -/
inductive PyError where
  | stopIteration : PyError
  | osError : PyError
  | keyError : String → PyError
deriving DecidableEq, Repr

/-- The filesystem, restricted to what the driver reads: each path either
holds a parsed YAML list of records (`some`) or is absent (`none`). -/
def FS := String → Option (List Dict)

/-- Python `d[k]`: the value at key `k`, raising `KeyError` when absent.
Lookup returns the first entry with key `k` (in a genuine Python dict keys
are unique, so first is the only one). -/
def dictGet (d : Dict) (k : String) : Except PyError Value :=
  match d with
  | [] => .error (.keyError k)
  | (k', v) :: rest => if k' = k then .ok v else dictGet rest k

/-- Python `d[k] = v` on an ordered dict: update the value in place when the
key exists (keeping its position), otherwise append the new pair. -/
def dictSet (d : Dict) (k : String) (v : Value) : Dict :=
  match d with
  | [] => [(k, v)]
  | (k', v') :: rest => if k' = k then (k, v) :: rest else (k', v') :: dictSet rest k v

/-- Model of `molecule.util.merge_dicts a b`: a copy of `a` updated with
every entry of `b` in order (for mapping-valued entries molecule recurses,
but instance-config records hold only scalars, where it assigns). -/
def merge_dicts (a : Dict) : Dict → Dict
  | [] => a
  | (k, v) :: rest => merge_dicts (dictSet a k v) rest

/-- Model of `molecule.util.safe_load_file path`: parse the YAML file at
`path`; opening a file that is not on disk raises `OSError`. -/
def safe_load_file (fs : FS) (path : String) : Except PyError (List Dict) :=
  match fs path with
  | none => .error .osError
  | some content => .ok content

/-- The slice of the molecule configuration object the driver reads:
`scenario.ephemeral_directory`, `driver.instance_config` (a path),
`provisioner.inventory_file`, and the base class's
`ssh_connection_options` list. -/
structure Config where
  ephemeral_directory : String
  instance_config : String
  inventory_file : String
  ssh_connection_options : List String
deriving DecidableEq, Repr

/-- Python `next(item for item in l if item["instance"] == name)`: scan in
order; a record with no `"instance"` key raises `KeyError`; an exhausted
scan raises `StopIteration`; otherwise the first record whose `"instance"`
value equals the name is returned.  (Comparing a non-string value with a
string in Python is `False`, not an error.) -/
def nextMatching (l : List Dict) (name : String) : Except PyError Dict :=
  match l with
  | [] => .error .stopIteration
  | d :: rest =>
    match dictGet d "instance" with
    | .error e => .error e
    | .ok v => if v = Value.s name then .ok d else nextMatching rest name

/-- `Vagrant._get_instance_config`: load the instance-config file named by
the configuration and return the first record for `instance_name`. -/
def get_instance_config (c : Config) (fs : FS) (instance_name : String) : Except PyError Dict :=
  match safe_load_file fs c.instance_config with
  | .error e => .error e
  | .ok l => nextMatching l instance_name

/-- The dictionary literal in the `try` block of
`Vagrant.ansible_connection_options`, evaluated on a record `d`: the four
field accesses happen in source order, each able to raise `KeyError`. -/
def build_ansible_dict (c : Config) (d : Dict) : Except PyError Dict := do
  let u ← dictGet d "user"
  let a ← dictGet d "address"
  let p ← dictGet d "port"
  let i ← dictGet d "identity_file"
  .ok [("ansible_user", u),
       ("ansible_host", a),
       ("ansible_port", p),
       ("ansible_private_key_file", i),
       ("connection", Value.s "ssh"),
       ("ansible_ssh_common_args", Value.s (String.intercalate " " c.ssh_connection_options))]

/-- `Vagrant.ansible_connection_options`: run the lookup and build the
connection mapping; `StopIteration` and `OSError` are caught and mapped to
the empty dictionary, any other exception propagates. -/
def ansible_connection_options (c : Config) (fs : FS) (instance_name : String) :
    Except PyError Dict :=
  match (do
    let d ← get_instance_config c fs instance_name
    build_ansible_dict c d) with
  | .ok r => .ok r
  | .error .stopIteration => .ok []
  | .error .osError => .ok []
  | .error e => .error e

/-- `Vagrant.login_options`: merge the singleton `instance` dictionary with
the looked-up record; the lookup's exceptions propagate unguarded. -/
def login_options (c : Config) (fs : FS) (instance_name : String) : Except PyError Dict := do
  let r ← get_instance_config c fs instance_name
  .ok (merge_dicts [("instance", Value.s instance_name)] r)

/-- Model of `os.path.join a b` for one component: an absolute second
component replaces the first, otherwise a separator is inserted unless the
first part is empty or already ends with one. -/
def os_path_join (a b : String) : String :=
  if b.startsWith "/" then b
  else if a = "" ∨ a.endsWith "/" then a ++ b
  else a ++ "/" ++ b

/-- `Vagrant.vagrantfile`: the path `<ephemeral_directory>/Vagrantfile`. -/
def vagrantfile (c : Config) : String :=
  os_path_join c.ephemeral_directory "Vagrantfile"

/-- `Vagrant.default_safe_files`: the five preserved paths, in source
order. -/
def default_safe_files (c : Config) : List String :=
  [vagrantfile c,
   c.instance_config,
   os_path_join c.ephemeral_directory ".vagrant",
   os_path_join c.ephemeral_directory "vagrant-*.out",
   os_path_join c.ephemeral_directory "vagrant-*.err"]

/-- `Vagrant.testinfra_options`: a fixed two-entry mapping (values are
strings here, so we keep it as a list of string pairs). -/
def testinfra_options (c : Config) : List (String × String) :=
  [("connection", "ansible"), ("ansible-inventory", c.inventory_file)]

/-- `Vagrant.login_cmd_template`: the SSH format string with the pre-joined
connection options appended. -/
def login_cmd_template (c : Config) : String :=
  "ssh {address} " ++ "-l {user} " ++ "-p {port} " ++ "-i {identity_file} " ++
    String.intercalate " " c.ssh_connection_options

/-- The value substituted for a placeholder by `str.format`; Python raises
on a missing key, but the claims only format templates whose placeholders
are all supplied, so the default is never reached there. -/
def lookupVar (vars : List (String × String)) (k : String) : String :=
  match vars with
  | [] => ""
  | (k', v) :: rest => if k' = k then v else lookupVar rest k

/-- Character-level engine for `str.format`: outside a placeholder
(`acc = none`) characters are copied and `{` opens a placeholder; inside
(`acc = some key`) characters accumulate (reversed) until `}` closes the
placeholder and substitutes its value. -/
def formatGo (vars : List (String × String)) : List Char → Option (List Char) → List Char
  | [], _ => []
  | ch :: rest, none =>
    if ch = Char.ofNat 123 then formatGo vars rest (some [])
    else ch :: formatGo vars rest none
  | ch :: rest, some key =>
    if ch = Char.ofNat 125 then
      (lookupVar vars (String.mk key.reverse)).data ++ formatGo vars rest none
    else formatGo vars rest (some (ch :: key))

/-- Model of Python `template.format(**vars)` for templates whose
placeholders are plain names, as produced by `login_cmd_template`. -/
def pyFormat (template : String) (vars : List (String × String)) : String :=
  String.mk (formatGo vars template.data none)

/-- Outcome of `Vagrant.sanity_checks`: either the process was terminated
with a message (`util.sysexit_with_message`) or the method returned. -/
inductive SanityResult where
  | exited : String → SanityResult
  | ok : SanityResult
deriving DecidableEq, Repr

/-- `Vagrant.sanity_checks`, as a function of the result of
`shutil.which("vagrant")` (`none` when the executable is not on the search
path): exit with the message when absent, otherwise do nothing (the second
check is an unimplemented TODO in the source). -/
def sanity_checks (which_vagrant : Option String) : SanityResult :=
  match which_vagrant with
  | none => .exited "vagrant executable was not found!"
  | some _ => .ok

/-- The mutable state of a `Vagrant` driver object: the `_name` attribute
set by `__init__` and the configuration passed to the constructor.  No
method of the class assigns to `self` except the `name` setter. -/
structure DriverState where
  driver_name : String
  config : Config
deriving DecidableEq, Repr

/-- `Vagrant.__init__`: store the configuration and set `_name` to
`"vagrant"`. -/
def vagrant_init (config : Config) : DriverState :=
  ⟨"vagrant", config⟩

/-- The query operations of the driver that the orchestrator can call. -/
inductive Op where
  | nameOp : Op
  | testinfraOp : Op
  | loginCmdOp : Op
  | safeFilesOp : Op
  | vagrantfileOp : Op
  | loginOp : String → Op
  | ansibleOp : String → Op
deriving DecidableEq, Repr

/-- The result of one driver operation (the union of their return types). -/
inductive OpResult where
  | strRes : String → OpResult
  | strListRes : List String → OpResult
  | pairsRes : List (String × String) → OpResult
  | dictRes : Except PyError Dict → OpResult
deriving Repr

/-- One call on the driver object: the operation reads the state and the
filesystem as it is at call time and returns its result together with the
(unchanged, since no method mutates `self`) object state. -/
def runOp (s : DriverState) (fs : FS) : Op → OpResult × DriverState
  | .nameOp => (.strRes s.driver_name, s)
  | .testinfraOp => (.pairsRes (testinfra_options s.config), s)
  | .loginCmdOp => (.strRes (login_cmd_template s.config), s)
  | .safeFilesOp => (.strListRes (default_safe_files s.config), s)
  | .vagrantfileOp => (.strRes (vagrantfile s.config), s)
  | .loginOp instance_name => (.dictRes (login_options s.config fs instance_name), s)
  | .ansibleOp instance_name => (.dictRes (ansible_connection_options s.config fs instance_name), s)

/-- A concrete configuration used to evaluate the theorems below. -/
def sampleConfig : Config :=
  ⟨"/tmp/eph", "/tmp/eph/instance_config.yml", "/tmp/eph/inventory", ["-o A=b", "-o C=d"]⟩

/-- The configuration of the spec's `login_cmd_template` sample: a single
SSH connection option. -/
def singleOptConfig : Config :=
  ⟨"/tmp/eph", "/tmp/eph/instance_config.yml", "/tmp/eph/inventory", ["-o Foo=bar"]⟩

/-- The instance-config record of the spec's scenario test. -/
def sampleRecord : Dict :=
  [("instance", Value.s "i1"), ("user", Value.s "u"), ("address", Value.s "1.2.3.4"),
   ("port", Value.n 22), ("identity_file", Value.s "/key")]

/-- A second record with the same instance name, used for the first-match
claim. -/
def shadowRecord : Dict :=
  [("instance", Value.s "i1"), ("user", Value.s "u2"), ("address", Value.s "5.6.7.8"),
   ("port", Value.n 2222), ("identity_file", Value.s "/key2")]

/-- A record for instance `i1` that is missing its `"user"` field. -/
def brokenRecord : Dict :=
  [("instance", Value.s "i1"), ("address", Value.s "1.2.3.4"),
   ("port", Value.n 22), ("identity_file", Value.s "/key")]

/-- A filesystem whose instance-config file holds exactly the scenario
record. -/
def sampleFS : FS := fun p =>
  if p = "/tmp/eph/instance_config.yml" then some [sampleRecord] else none

/-- A filesystem with two records for the same instance name. -/
def dupFS : FS := fun p =>
  if p = "/tmp/eph/instance_config.yml" then some [sampleRecord, shadowRecord] else none

/-- A filesystem whose record for instance `i1` lacks the `"user"` field. -/
def brokenFS : FS := fun p =>
  if p = "/tmp/eph/instance_config.yml" then some [brokenRecord] else none

/-- A filesystem with no files at all. -/
def emptyFS : FS := fun _ => none

theorem dictGet_not_mem {d : Dict} {k : String} (h : k ∉ d.map Prod.fst) :
    dictGet d k = .error (.keyError k) := by
  induction d with
  | nil => rfl
  | cons p rest ih =>
    obtain ⟨k', v⟩ := p
    simp only [List.map_cons, List.mem_cons] at h
    push_neg at h
    have hne : k' ≠ k := fun e => h.1 e.symm
    simp [dictGet, hne, ih h.2]

theorem dictGet_ok_mem {d : Dict} {k : String} {v : Value} (h : dictGet d k = .ok v) :
    k ∈ d.map Prod.fst := by
  induction d with
  | nil => simp [dictGet] at h
  | cons p rest ih =>
    obtain ⟨k', v'⟩ := p
    by_cases hk : k' = k
    · simp [hk]
    · simp only [dictGet, if_neg hk] at h
      simp [ih h]

theorem dictGet_dictSet_self (d : Dict) (k : String) (v : Value) :
    dictGet (dictSet d k v) k = .ok v := by
  induction d with
  | nil => simp [dictSet, dictGet]
  | cons p rest ih =>
    obtain ⟨k', v'⟩ := p
    by_cases hk : k' = k
    · simp [dictSet, hk, dictGet]
    · simp [dictSet, hk, dictGet, ih]

theorem dictGet_dictSet_ne (d : Dict) {k k' : String} (v : Value) (h : k ≠ k') :
    dictGet (dictSet d k v) k' = dictGet d k' := by
  induction d with
  | nil => simp [dictSet, dictGet, h]
  | cons p rest ih =>
    obtain ⟨k0, v0⟩ := p
    by_cases hk : k0 = k
    · subst hk
      simp [dictSet, dictGet, h]
    · by_cases hk' : k0 = k'
      · simp [dictSet, hk, dictGet, hk', Ne.symm h]
      · simp [dictSet, hk, dictGet, hk', ih]

theorem merge_dicts_notin {b : Dict} {k : String} (a : Dict)
    (h : k ∉ b.map Prod.fst) :
    dictGet (merge_dicts a b) k = dictGet a k := by
  induction b generalizing a with
  | nil => rfl
  | cons p rest ih =>
    obtain ⟨k0, v0⟩ := p
    simp only [List.map_cons, List.mem_cons] at h
    push_neg at h
    rw [merge_dicts, ih _ h.2, dictGet_dictSet_ne _ _ (fun e => h.1 e.symm)]

theorem merge_dicts_mem {b : Dict} {k : String} {v : Value} (a : Dict)
    (hnd : (b.map Prod.fst).Nodup) (h : dictGet b k = .ok v) :
    dictGet (merge_dicts a b) k = .ok v := by
  induction b generalizing a with
  | nil => simp [dictGet] at h
  | cons p rest ih =>
    obtain ⟨k0, v0⟩ := p
    simp only [List.map_cons, List.nodup_cons] at hnd
    by_cases hk : k0 = k
    · subst hk
      simp [dictGet] at h
      rw [merge_dicts, merge_dicts_notin _ hnd.1, dictGet_dictSet_self, h]
    · simp only [dictGet, if_neg hk] at h
      rw [merge_dicts]
      exact ih _ hnd.2 h

theorem nextMatching_nomatch {l : List Dict} {name : String}
    (h : ∀ d ∈ l, ∃ v, dictGet d "instance" = .ok v ∧ v ≠ Value.s name) :
    nextMatching l name = .error .stopIteration := by
  induction l with
  | nil => rfl
  | cons d rest ih =>
    obtain ⟨v, hv, hne⟩ := h d (List.mem_cons_self d rest)
    simp [nextMatching, hv, hne, ih (fun d' hd' => h d' (List.mem_cons_of_mem _ hd'))]

theorem nextMatching_first {name : String} {l1 : List Dict} (r : Dict) (l2 : List Dict)
    (h1 : ∀ d ∈ l1, ∃ v, dictGet d "instance" = .ok v ∧ v ≠ Value.s name)
    (hr : dictGet r "instance" = .ok (Value.s name)) :
    nextMatching (l1 ++ r :: l2) name = .ok r := by
  induction l1 with
  | nil => simp [nextMatching, hr]
  | cons d rest ih =>
    obtain ⟨v, hv, hne⟩ := h1 d (List.mem_cons_self d rest)
    simp [nextMatching, hv, hne, ih (fun d' hd' => h1 d' (List.mem_cons_of_mem _ hd'))]

theorem nextMatching_ok {l : List Dict} {name : String} {d : Dict}
    (h : nextMatching l name = .ok d) :
    dictGet d "instance" = .ok (Value.s name) := by
  induction l with
  | nil => simp [nextMatching] at h
  | cons d0 rest ih =>
    cases hg : dictGet d0 "instance" with
    | error e => simp [nextMatching, hg] at h
    | ok v =>
      by_cases hv : v = Value.s name
      · simp only [nextMatching, hg, if_pos hv, Except.ok.injEq] at h
        subst h
        rw [hg, hv]
      · simp only [nextMatching, hg, if_neg hv] at h
        exact ih h

theorem get_instance_config_some {c : Config} {fs : FS} {l : List Dict}
    (hf : fs c.instance_config = some l) (name : String) :
    get_instance_config c fs name = nextMatching l name := by
  simp [get_instance_config, safe_load_file, hf]

theorem get_instance_config_none {c : Config} {fs : FS}
    (hf : fs c.instance_config = none) (name : String) :
    get_instance_config c fs name = .error .osError := by
  simp [get_instance_config, safe_load_file, hf]

theorem get_instance_config_ok_instance {c : Config} {fs : FS} {name : String} {d : Dict}
    (h : get_instance_config c fs name = .ok d) :
    dictGet d "instance" = .ok (Value.s name) := by
  cases hf : fs c.instance_config with
  | none => rw [get_instance_config_none hf] at h; simp at h
  | some l => rw [get_instance_config_some hf] at h; exact nextMatching_ok h

theorem dictGet_error {d : Dict} {k : String} {e : PyError} (h : dictGet d k = .error e) :
    e = .keyError k := by
  induction d with
  | nil =>
    simp only [dictGet, Except.error.injEq] at h
    exact h.symm
  | cons p rest ih =>
    obtain ⟨k', v⟩ := p
    by_cases hk : k' = k
    · simp [dictGet, hk] at h
    · simp only [dictGet, if_neg hk] at h
      exact ih h

/-- C1: for an instance name whose record is found in the instance-config
file, `ansible_connection_options` returns exactly the six-entry mapping of
the four record fields renamed to the Ansible variable names, the constant
`connection: "ssh"`, and the joined SSH connection options — and no other
keys. -/
theorem C1_ansible_connection_options_exact (c : Config) (fs : FS) (instance_name : String)
    (d : Dict) (u a p i : Value)
    (hd : get_instance_config c fs instance_name = .ok d)
    (hu : dictGet d "user" = .ok u)
    (ha : dictGet d "address" = .ok a)
    (hp : dictGet d "port" = .ok p)
    (hi : dictGet d "identity_file" = .ok i) :
    ansible_connection_options c fs instance_name =
      .ok [("ansible_user", u),
           ("ansible_host", a),
           ("ansible_port", p),
           ("ansible_private_key_file", i),
           ("connection", Value.s "ssh"),
           ("ansible_ssh_common_args",
             Value.s (String.intercalate " " c.ssh_connection_options))] := by
  simp [ansible_connection_options, build_ansible_dict, hd, hu, ha, hp, hi,
    Bind.bind, Except.bind]

/-- C1 witness: the spec's scenario record, evaluated concretely. -/
theorem C1_witness :
    ansible_connection_options sampleConfig sampleFS "i1" =
      .ok [("ansible_user", Value.s "u"),
           ("ansible_host", Value.s "1.2.3.4"),
           ("ansible_port", Value.n 22),
           ("ansible_private_key_file", Value.s "/key"),
           ("connection", Value.s "ssh"),
           ("ansible_ssh_common_args", Value.s "-o A=b -o C=d")] :=
  C1_ansible_connection_options_exact sampleConfig sampleFS "i1" sampleRecord
    (Value.s "u") (Value.s "1.2.3.4") (Value.n 22) (Value.s "/key")
    rfl rfl rfl rfl rfl

/-- C2: when the instance-config file is absent from disk, or present but
holding no record whose `"instance"` field equals the requested name,
`ansible_connection_options` returns the empty mapping (and in particular
does not raise: the result is `ok`, not `error`). -/
theorem C2_ansible_connection_options_empty (c : Config) (fs : FS) (instance_name : String)
    (h : fs c.instance_config = none ∨
      ∃ l, fs c.instance_config = some l ∧
        ∀ d ∈ l, ∃ v, dictGet d "instance" = .ok v ∧ v ≠ Value.s instance_name) :
    ansible_connection_options c fs instance_name = .ok [] := by
  rcases h with hf | ⟨l, hf, hnm⟩
  · simp [ansible_connection_options, get_instance_config_none hf, Bind.bind, Except.bind]
  · simp [ansible_connection_options, get_instance_config_some hf,
      nextMatching_nomatch hnm, Bind.bind, Except.bind]

/-- C2 witness: a missing file, and a file whose only record is for a
different instance. -/
theorem C2_witness :
    ansible_connection_options sampleConfig emptyFS "i1" = .ok [] ∧
    ansible_connection_options sampleConfig sampleFS "i2" = .ok [] := by
  constructor
  · exact C2_ansible_connection_options_empty sampleConfig emptyFS "i1" (Or.inl rfl)
  · refine C2_ansible_connection_options_empty sampleConfig sampleFS "i2"
      (Or.inr ⟨[sampleRecord], rfl, ?_⟩)
    intro d hd
    rw [List.mem_singleton] at hd
    subst hd
    exact ⟨Value.s "i1", rfl, by decide⟩

/-- C3: when the instance-config file is absent from disk, or present but
holding no record whose `"instance"` field equals the requested name,
`login_options` propagates the lookup's failure — the result is an `error`,
never an empty or partial `ok` mapping. -/
theorem C3_login_options_raises (c : Config) (fs : FS) (instance_name : String)
    (h : fs c.instance_config = none ∨
      ∃ l, fs c.instance_config = some l ∧
        ∀ d ∈ l, ∃ v, dictGet d "instance" = .ok v ∧ v ≠ Value.s instance_name) :
    ∃ e, login_options c fs instance_name = .error e := by
  rcases h with hf | ⟨l, hf, hnm⟩
  · exact ⟨.osError,
      by simp [login_options, get_instance_config_none hf, Bind.bind, Except.bind]⟩
  · exact ⟨.stopIteration,
      by simp [login_options, get_instance_config_some hf,
        nextMatching_nomatch hnm, Bind.bind, Except.bind]⟩

/-- C3 witness: a missing file, and a file whose only record is for a
different instance. -/
theorem C3_witness :
    (∃ e, login_options sampleConfig emptyFS "i1" = .error e) ∧
    ∃ e, login_options sampleConfig sampleFS "i2" = .error e := by
  constructor
  · exact C3_login_options_raises sampleConfig emptyFS "i1" (Or.inl rfl)
  · refine C3_login_options_raises sampleConfig sampleFS "i2"
      (Or.inr ⟨[sampleRecord], rfl, ?_⟩)
    intro d hd
    rw [List.mem_singleton] at hd
    subst hd
    exact ⟨Value.s "i1", rfl, by decide⟩

/-- C4: for an instance name whose record is found, `login_options` returns
the merge of the singleton `instance` mapping with the record: the result
maps `"instance"` to the requested name and keeps every field of the
record. -/
theorem C4_login_options_merge (c : Config) (fs : FS) (instance_name : String) (d : Dict)
    (hd : get_instance_config c fs instance_name = .ok d)
    (hnd : (d.map Prod.fst).Nodup) :
    login_options c fs instance_name =
      .ok (merge_dicts [("instance", Value.s instance_name)] d) ∧
    dictGet (merge_dicts [("instance", Value.s instance_name)] d) "instance" =
      .ok (Value.s instance_name) ∧
    ∀ k v, dictGet d k = .ok v →
      dictGet (merge_dicts [("instance", Value.s instance_name)] d) k = .ok v := by
  refine ⟨by simp [login_options, hd, Bind.bind, Except.bind], ?_, ?_⟩
  · exact merge_dicts_mem _ hnd (get_instance_config_ok_instance hd)
  · intro k v hv
    exact merge_dicts_mem _ hnd hv

/-- C4 witness: the scenario record, with the merged result spelled out. -/
theorem C4_witness :
    login_options sampleConfig sampleFS "i1" =
      .ok (merge_dicts [("instance", Value.s "i1")] sampleRecord) ∧
    dictGet (merge_dicts [("instance", Value.s "i1")] sampleRecord) "instance" =
      .ok (Value.s "i1") ∧
    ∀ k v, dictGet sampleRecord k = .ok v →
      dictGet (merge_dicts [("instance", Value.s "i1")] sampleRecord) k = .ok v :=
  C4_login_options_merge sampleConfig sampleFS "i1" sampleRecord rfl (by decide)

/-- C5: the lookup shared by `login_options` and
`ansible_connection_options` returns the first record in file order whose
`"instance"` field equals the requested name, so with duplicate names the
earliest record wins. -/
theorem C5_first_match (c : Config) (fs : FS) (instance_name : String)
    (l1 l2 : List Dict) (r : Dict)
    (hf : fs c.instance_config = some (l1 ++ r :: l2))
    (h1 : ∀ d ∈ l1, ∃ v, dictGet d "instance" = .ok v ∧ v ≠ Value.s instance_name)
    (hr : dictGet r "instance" = .ok (Value.s instance_name)) :
    get_instance_config c fs instance_name = .ok r ∧
    login_options c fs instance_name =
      .ok (merge_dicts [("instance", Value.s instance_name)] r) := by
  have hg : get_instance_config c fs instance_name = .ok r := by
    rw [get_instance_config_some hf]
    exact nextMatching_first r l2 h1 hr
  exact ⟨hg, by simp [login_options, hg, Bind.bind, Except.bind]⟩

/-- C5 witness: two records for instance `i1`; the first one is returned. -/
theorem C5_witness :
    get_instance_config sampleConfig dupFS "i1" = .ok sampleRecord ∧
    login_options sampleConfig dupFS "i1" =
      .ok (merge_dicts [("instance", Value.s "i1")] sampleRecord) := by
  refine C5_first_match sampleConfig dupFS "i1" [] [shadowRecord] sampleRecord rfl ?_ rfl
  intro d hd
  exact absurd hd (List.not_mem_nil d)

/-- C6: `default_safe_files` always contains the computed Vagrantfile path
and the instance-config path, for every configuration, and the Vagrantfile
path is the join of the ephemeral directory with `Vagrantfile`. -/
theorem C6_default_safe_files (c : Config) :
    vagrantfile c ∈ default_safe_files c ∧
    c.instance_config ∈ default_safe_files c ∧
    vagrantfile c = os_path_join c.ephemeral_directory "Vagrantfile" := by
  refine ⟨?_, ?_, rfl⟩ <;> simp [default_safe_files]

/-- C7: formatting `login_cmd_template` with the spec's sample values and
the single SSH option yields an ssh command containing the address, the
user after `-l`, the port after `-p`, the identity file after `-i`, and the
joined literal option text last, in that order. -/
theorem C7_login_cmd_template_format :
    pyFormat (login_cmd_template singleOptConfig)
      [("address", "1.2.3.4"), ("user", "vagrant"), ("port", "22"),
       ("identity_file", "/k")] =
    "ssh " ++ "1.2.3.4" ++ " -l " ++ "vagrant" ++ " -p " ++ "22" ++ " -i " ++ "/k" ++
      " " ++ "-o Foo=bar" := by
  rfl

/-- C8: `sanity_checks` terminates the process with the descriptive message
exactly when `which` finds no `vagrant` executable, and otherwise returns
normally without doing anything else. -/
theorem C8_sanity_checks (which_vagrant : Option String) :
    (which_vagrant = none →
      sanity_checks which_vagrant = .exited "vagrant executable was not found!") ∧
    ∀ p, which_vagrant = some p → sanity_checks which_vagrant = .ok := by
  constructor
  · intro h
    subst h
    rfl
  · intro p h
    subst h
    rfl

/-- C8 witness: both branches evaluated at concrete inputs. -/
theorem C8_witness :
    sanity_checks none = .exited "vagrant executable was not found!" ∧
    sanity_checks (some "/usr/bin/vagrant") = .ok :=
  ⟨(C8_sanity_checks none).1 rfl,
   (C8_sanity_checks (some "/usr/bin/vagrant")).2 "/usr/bin/vagrant" rfl⟩

/-- C9: every driver operation leaves the object state unchanged, so a call
is a pure function of the state, the operation, and the filesystem at call
time: after any call, any further call behaves exactly as it would have on
the original state — results are deterministic and nothing is cached
between calls. -/
theorem C9_stateless_deterministic (s : DriverState) (fs : FS) (op : Op) :
    (runOp s fs op).2 = s ∧
    ∀ (fs2 : FS) (op2 : Op), runOp ((runOp s fs op).2) fs2 op2 = runOp s fs2 op2 := by
  cases op <;> exact ⟨rfl, fun _ _ => rfl⟩

/-- C10: when the looked-up record exists but lacks one of the fields
`user`, `address`, `port` or `identity_file`, `ansible_connection_options`
propagates a `KeyError` instead of returning the empty mapping: only the
no-match and file-absent failures are mapped to the empty result. -/
theorem C10_missing_field_raises (c : Config) (fs : FS) (instance_name : String) (d : Dict)
    (hd : get_instance_config c fs instance_name = .ok d)
    (h : ∃ k ∈ ["user", "address", "port", "identity_file"], k ∉ d.map Prod.fst) :
    ∃ k, ansible_connection_options c fs instance_name = .error (.keyError k) := by
  rcases h with ⟨k0, hk0mem, hk0⟩
  cases hu : dictGet d "user" with
  | error e =>
    rcases dictGet_error hu with rfl
    exact ⟨"user", by simp [ansible_connection_options, build_ansible_dict, hd, hu,
      Bind.bind, Except.bind]⟩
  | ok u =>
    cases ha : dictGet d "address" with
    | error e =>
      rcases dictGet_error ha with rfl
      exact ⟨"address", by simp [ansible_connection_options, build_ansible_dict, hd, hu, ha,
        Bind.bind, Except.bind]⟩
    | ok a =>
      cases hp : dictGet d "port" with
      | error e =>
        rcases dictGet_error hp with rfl
        exact ⟨"port", by simp [ansible_connection_options, build_ansible_dict, hd, hu, ha, hp,
          Bind.bind, Except.bind]⟩
      | ok p =>
        cases hi : dictGet d "identity_file" with
        | error e =>
          rcases dictGet_error hi with rfl
          exact ⟨"identity_file", by simp [ansible_connection_options, build_ansible_dict,
            hd, hu, ha, hp, hi, Bind.bind, Except.bind]⟩
        | ok i =>
          exfalso
          simp only [List.mem_cons, List.not_mem_nil, or_false] at hk0mem
          rcases hk0mem with rfl | rfl | rfl | rfl
          · exact hk0 (dictGet_ok_mem hu)
          · exact hk0 (dictGet_ok_mem ha)
          · exact hk0 (dictGet_ok_mem hp)
          · exact hk0 (dictGet_ok_mem hi)

/-- C10 witness: a record for instance `i1` missing its `user` field makes
the call raise a `KeyError`. -/
theorem C10_witness :
    ∃ k, ansible_connection_options sampleConfig brokenFS "i1" = .error (.keyError k) :=
  C10_missing_field_raises sampleConfig brokenFS "i1" brokenRecord rfl
    ⟨"user", by decide, by decide⟩
